import Mathlib

/-!
Shallow embedding of `src/app.py` (a Flask inventory/order admin app) for
verification of its specification.  Database tables become Lean lists of
records, the Flask cookie session becomes a record of optional fields,
route handlers become pure functions from (session, stores, form input) to
(reply, stores).  External libraries are parameters: the bcrypt hash check
is a function argument `check : String → String → Bool`, the WTForms
`Email()` validator is `validEmail : String → Bool`.  Python floats fed by
`DecimalField` values are modelled as `Rat` (the concrete values in the
claims, 0.0 and the like, are exact).  The MySQL unique constraint on
`Producto.nombre` is modelled by the insert primitive returning
`Except DBError`, matching the IntegrityError the driver raises; a handler
with no exception handling propagates that `Except.error`.
-/

namespace App

/-- `Usuario` model (app.py lines 58-63): id, nombre, unique correo,
bcrypt-hashed contraseña, rol (default "empleado"). -/
structure Usuario where
  id : Nat
  nombre : String
  correo : String
  contrasena : String
  rol : String
deriving DecidableEq, Repr

/-- `Categoria` model (app.py lines 37-41): id, unique nombre, descripcion. -/
structure Categoria where
  id : Nat
  nombre : String
  descripcion : String
deriving DecidableEq, Repr

/-- `Producto` model (app.py lines 43-48): id, unique nombre, cantidad,
precio, nullable categoria_id foreign key. -/
structure Producto where
  id : Nat
  nombre : String
  cantidad : Int
  precio : Rat
  categoria_id : Option Nat
deriving DecidableEq, Repr

/-- `Cliente` model (app.py lines 50-56). -/
structure Cliente where
  id : Nat
  nombre : String
  correo : String
  telefono : String
  direccion : String
deriving DecidableEq, Repr

/-- `Orden` model (app.py lines 65-69): cliente_id (required), fecha,
total (default 0.0). -/
structure Orden where
  id : Nat
  cliente_id : Nat
  fecha : String
  total : Rat
deriving DecidableEq, Repr

/-- The Flask cookie session: the three keys the app ever writes
(`usuario_id`, `usuario_nombre`, `usuario_rol`), each possibly absent. -/
structure Session where
  usuario_id : Option Nat
  usuario_nombre : Option String
  usuario_rol : Option String
deriving DecidableEq, Repr

/-- The empty session (no keys set), as after `session.clear()`. -/
def Session.empty : Session := ⟨none, none, none⟩

/-- What a handler sends back: a redirect to a named endpoint, a rendered
template, or Flask's `get_or_404` abort. -/
inductive Response where
  | redirect (endpoint : String)
  | render (template : String)
  | abort404
deriving DecidableEq, Repr

/-- A handler reply: the flashed (message, category) notices plus the
response. -/
structure Reply where
  flashes : List (String × String)
  response : Response
deriving DecidableEq, Repr

/-- The unauthenticated reply produced by `login_required`
(app.py lines 18-25): warning flash, redirect to `login`. -/
def unauthenticatedReply : Reply :=
  ⟨[("Por favor inicia sesión para acceder a esta página.", "warning")],
    .redirect "login"⟩

/-- The forbidden reply produced by `admin_required`
(app.py lines 27-34): danger flash, redirect to `index` (home). -/
def forbiddenReply : Reply :=
  ⟨[("No tienes permisos para acceder a esta página.", "danger")],
    .redirect "index"⟩

/-- The two guard decorators of app.py. -/
inductive Guard where
  | requireLogin
  | requireAdmin
deriving DecidableEq, Repr

/-- One guard check.  `login_required`: fail unless `usuario_id` is in the
session.  `admin_required`: fail unless `usuario_rol` is in the session and
equals "admin" (exact string comparison, app.py line 30).  `none` means the
guard passes. -/
def runGuard : Guard → Session → Option Reply
  | .requireLogin, s => if s.usuario_id.isSome then none else some unauthenticatedReply
  | .requireAdmin, s => if s.usuario_rol = some "admin" then none else some forbiddenReply

/-- Run a decorator stack left to right (outermost decorator first); the
first failing guard short-circuits with its reply. -/
def runGuards : List Guard → Session → Option Reply
  | [], _ => none
  | g :: gs, s =>
    match runGuard g s with
    | some r => some r
    | none => runGuards gs s

/-- Every routed endpoint of app.py. -/
inductive Route where
  | login | logout | index | about
  | listar_categorias | nuevo_categoria | editar_categoria | eliminar_categoria
  | listar_productos | nuevo_producto | editar_producto | eliminar_producto
  | listar_clientes | nuevo_cliente | editar_cliente | eliminar_cliente
  | listar_usuarios | nuevo_usuario | editar_usuario | eliminar_usuario
  | listar_ordenes | nueva_orden | editar_orden | eliminar_orden | ver_orden
deriving DecidableEq, Repr

/-- The decorator stack of each route, transcribed from app.py.  Python
applies stacked decorators bottom-up, so `@login_required` above
`@admin_required` wraps the handler so that the session check runs before
the role check. -/
def routeGuards : Route → List Guard
  | .login | .logout | .index | .about => []
  | .listar_categorias | .nuevo_categoria | .editar_categoria | .eliminar_categoria =>
    [.requireLogin, .requireAdmin]
  | .listar_usuarios | .nuevo_usuario | .editar_usuario | .eliminar_usuario =>
    [.requireLogin, .requireAdmin]
  | .listar_productos | .nuevo_producto | .editar_producto | .eliminar_producto =>
    [.requireLogin]
  | .listar_clientes | .nuevo_cliente | .editar_cliente | .eliminar_cliente =>
    [.requireLogin]
  | .listar_ordenes | .nueva_orden | .editar_orden | .eliminar_orden | .ver_orden =>
    [.requireLogin]

/-- Dispatch a route: evaluate its guard chain; only when every guard
passes does the handler body run. -/
def dispatch (r : Route) (s : Session) (body : Reply) : Reply :=
  match runGuards (routeGuards r) s with
  | some rep => rep
  | none => body

/-- The decorated `listar_categorias` route (app.py lines 163-168):
`@login_required` then `@admin_required`, and a body rendering the
category list. -/
def listar_categorias (s : Session) : Reply :=
  dispatch .listar_categorias s ⟨[], .render "categories/list.html"⟩

/-! ## WTForms field validation -/

/-- WTForms `DataRequired` on a string field: the data must be truthy, and
a whitespace-only string also fails (`not field.data.strip()`); that is,
the string must hold at least one non-whitespace character. -/
def dataRequired (x : String) : Bool := x.toList.any (fun c => !c.isWhitespace)

/-- WTForms `Length(min=lo, max=hi)`. -/
def lengthBetween (lo hi : Nat) (s : String) : Bool :=
  decide (lo ≤ s.length) && decide (s.length ≤ hi)

/-- WTForms `DataRequired` on an `IntegerField`: `none` is a failed
coercion; the integer `0` is falsy in Python, so it fails too. -/
def intFieldDataRequired : Option Int → Bool
  | none => false
  | some n => n ≠ 0

/-- WTForms `NumberRange(min=0)` on an `IntegerField`. -/
def intFieldMin0 : Option Int → Bool
  | none => false
  | some n => 0 ≤ n

/-- WTForms `DataRequired` on a `DecimalField`: `Decimal(0)` is falsy. -/
def ratFieldDataRequired : Option Rat → Bool
  | none => false
  | some q => q ≠ 0

/-- WTForms `NumberRange(min=0)` on a `DecimalField`. -/
def ratFieldMin0 : Option Rat → Bool
  | none => false
  | some q => 0 ≤ q

/-- WTForms `SelectField(coerce=int)` pre-validation: the submitted value
must coerce and be one of the configured choices. -/
def selectChoiceValid (choices : List Nat) : Option Int → Bool
  | none => false
  | some v => choices.any (fun c => (c : Int) = v)

/-! ## Authentication routes -/

/-- The submitted `LoginForm` fields (app.py lines 103-106). -/
structure LoginFormInput where
  correo : String
  contrasena : String
deriving DecidableEq, Repr

/-- `LoginForm` validation: correo `DataRequired` + `Email()` (the library
validator is the parameter `validEmail`), contraseña `DataRequired`. -/
def loginFormValid (validEmail : String → Bool) (f : LoginFormInput) : Bool :=
  dataRequired f.correo && validEmail f.correo && dataRequired f.contrasena

/-- The `login` route (app.py lines 127-145).  `check` is
`bcrypt.check_password_hash` (stored hash, raw password).  A `none` form
models a GET request or a POST that fails CSRF, where
`validate_on_submit()` is false before field validation even runs.  If
`usuario_id` is already in the session the route redirects to `index` at
once.  Otherwise it looks the user up by correo; on a found user whose
hash check passes it stores id/nombre/rol in the session and redirects;
on a missing user or failed check it flashes a danger notice and
re-renders the login page with the session untouched. -/
def login (check : String → String → Bool) (validEmail : String → Bool)
    (usuarios : List Usuario) (s : Session) (form : Option LoginFormInput) :
    Reply × Session :=
  if s.usuario_id.isSome then (⟨[], .redirect "index"⟩, s)
  else
    match form with
    | some f =>
      if loginFormValid validEmail f then
        match usuarios.find? (fun u => u.correo == f.correo) with
        | some u =>
          if check u.contrasena f.contrasena then
            (⟨[("¡Inicio de sesión exitoso!", "success")], .redirect "index"⟩,
             ⟨some u.id, some u.nombre, some u.rol⟩)
          else
            (⟨[("Correo o contraseña incorrectos", "danger")], .render "login.html"⟩, s)
        | none =>
          (⟨[("Correo o contraseña incorrectos", "danger")], .render "login.html"⟩, s)
      else (⟨[], .render "login.html"⟩, s)
    | none => (⟨[], .render "login.html"⟩, s)

/-- The `logout` route (app.py lines 147-151): `session.clear()`, info
flash, redirect to `index`. -/
def logout (_s : Session) : Reply × Session :=
  (⟨[("Has cerrado sesión correctamente.", "info")], .redirect "index"⟩, Session.empty)

/-! ## Product CRUD -/

/-- A database-level error; the MySQL driver raises `IntegrityError` when
a unique constraint is violated. -/
inductive DBError where
  | integrityError
deriving DecidableEq, Repr

/-- A committed insert into the `producto` table: `nombre` carries
`unique=True` (app.py line 45), so a duplicate name makes the commit fail
and the table keeps its previous rows. -/
def insertProducto (prods : List Producto) (p : Producto) :
    Except DBError (List Producto) :=
  if prods.any (fun q => q.nombre == p.nombre) then .error .integrityError
  else .ok (prods ++ [p])

/-- The submitted `ProductoForm` fields (app.py lines 77-82); `none` in a
numeric field is a failed coercion. -/
structure ProductoFormInput where
  nombre : String
  cantidad : Option Int
  precio : Option Rat
  categoria_id : Option Int
deriving DecidableEq, Repr

/-- `ProductoForm` validation: nombre `DataRequired` + `Length(2,120)`;
cantidad `DataRequired` + `NumberRange(min=0)`; precio `DataRequired` +
`NumberRange(min=0)`; categoria_id must be one of the choices built from
the current categories (app.py line 218). -/
def productoFormValid (cats : List Categoria) (f : ProductoFormInput) : Bool :=
  dataRequired f.nombre && lengthBetween 2 120 f.nombre
  && intFieldDataRequired f.cantidad && intFieldMin0 f.cantidad
  && ratFieldDataRequired f.precio && ratFieldMin0 f.precio
  && selectChoiceValid (cats.map Categoria.id) f.categoria_id

/-- The body of the `nuevo_producto` route (app.py lines 214-229), after
its `login_required` guard.  On a valid form it inserts the new row and
redirects with a success flash; on an invalid form it re-renders the form.
The handler has no try/except, so a failed commit (duplicate nombre)
escapes as `Except.error`. -/
def nuevo_producto (cats : List Categoria) (prods : List Producto)
    (f : ProductoFormInput) (newId : Nat) :
    Except DBError (Reply × List Producto) :=
  if productoFormValid cats f then
    match insertProducto prods
        ⟨newId, f.nombre, (f.cantidad.getD 0), (f.precio.getD 0),
          some (f.categoria_id.getD 0).toNat⟩ with
    | .error e => .error e
    | .ok ps =>
      .ok (⟨[("Producto creado con éxito", "success")], .redirect "listar_productos"⟩, ps)
  else .ok (⟨[], .render "products/form.html"⟩, prods)

/-- The body of `listar_productos` (app.py lines 208-212): renders every
row of the product table. -/
def list_productos (prods : List Producto) : List Producto := prods

/-! ## Order CRUD -/

/-- The submitted `OrdenForm` fields (app.py lines 98-101). -/
structure OrdenFormInput where
  cliente_id : Option Int
  fecha : String
deriving DecidableEq, Repr

/-- `OrdenForm` validation: cliente_id `DataRequired` plus the select
choices built from the current customers (app.py line 381); fecha
`DataRequired`. -/
def ordenFormValid (clientes : List Cliente) (f : OrdenFormInput) : Bool :=
  intFieldDataRequired f.cliente_id
  && selectChoiceValid (clientes.map Cliente.id) f.cliente_id
  && dataRequired f.fecha

/-- The body of the `nueva_orden` route (app.py lines 373-393), after its
`login_required` guard.  With zero customers it flashes a warning and
redirects to the customer list before any form processing, leaving the
order table untouched.  With customers present and a valid form it commits
an `Orden` whose total is the literal 0.0; otherwise it re-renders the
form. -/
def nueva_orden (clientes : List Cliente) (ordenes : List Orden)
    (f : OrdenFormInput) (newId : Nat) : Reply × List Orden :=
  if clientes.isEmpty then
    (⟨[("Debe agregar al menos un cliente antes de crear una orden.", "warning")],
      .redirect "listar_clientes"⟩, ordenes)
  else if ordenFormValid clientes f then
    (⟨[("Orden creada con éxito.", "success")], .redirect "listar_ordenes"⟩,
     ordenes ++ [⟨newId, (f.cliente_id.getD 0).toNat, f.fecha, 0⟩])
  else (⟨[], .render "orders/form.html"⟩, ordenes)

/-! ## Category CRUD -/

/-- The submitted `CategoriaForm` fields (app.py lines 72-75). -/
structure CategoriaFormInput where
  nombre : String
  descripcion : String
deriving DecidableEq, Repr

/-- `CategoriaForm` validation: nombre `DataRequired` + `Length(2,100)`;
descripcion has no validators. -/
def categoriaFormValid (f : CategoriaFormInput) : Bool :=
  dataRequired f.nombre && lengthBetween 2 100 f.nombre

/-- `Categoria.query.get_or_404(id)` / a fetch by primary key. -/
def fetchCategoria (cats : List Categoria) (id : Nat) : Option Categoria :=
  cats.find? (fun c => c.id == id)

/-- The body of the `editar_categoria` route (app.py lines 182-195), after
its guards: 404 on a missing id; on a valid form, `populate_obj` writes
the form's nombre and descripcion onto the row and the change is
committed; otherwise the form re-renders. -/
def editar_categoria (cats : List Categoria) (id : Nat) (f : CategoriaFormInput) :
    Reply × List Categoria :=
  match fetchCategoria cats id with
  | none => (⟨[], .abort404⟩, cats)
  | some _ =>
    if categoriaFormValid f then
      (⟨[("Categoría actualizada con éxito", "success")], .redirect "listar_categorias"⟩,
       cats.map fun c =>
         if c.id == id then { c with nombre := f.nombre, descripcion := f.descripcion }
         else c)
    else (⟨[], .render "categories/form.html"⟩, cats)

/-- The body of the `eliminar_categoria` route (app.py lines 197-205),
after its guards: 404 on a missing id; otherwise the row is deleted.  The
`Producto.categoria_id` foreign key is nullable and the relationship has
no delete cascade, so the object-relational layer nulls out the reference
of each product that pointed at the deleted category; the product rows
themselves stay. -/
def eliminar_categoria (cats : List Categoria) (prods : List Producto) (id : Nat) :
    Reply × List Categoria × List Producto :=
  match fetchCategoria cats id with
  | none => (⟨[], .abort404⟩, cats, prods)
  | some _ =>
    (⟨[("Categoría eliminada con éxito", "success")], .redirect "listar_categorias"⟩,
     cats.filter (fun c => !(c.id == id)),
     prods.map fun p =>
       if p.categoria_id == some id then { p with categoria_id := none } else p)

/-! ## User CRUD -/

/-- The submitted `UsuarioForm` fields (app.py lines 91-96); on the edit
screen the contraseña field may be left empty. -/
structure UsuarioFormInput where
  nombre : String
  correo : String
  contrasena : String
  rol : String
deriving DecidableEq, Repr

/-- `UsuarioForm` validation: nombre `DataRequired`; correo `DataRequired`
+ `Email()`; contraseña `Optional()` (empty allowed); rol a select over
{admin, empleado}. -/
def usuarioFormValid (validEmail : String → Bool) (f : UsuarioFormInput) : Bool :=
  dataRequired f.nombre && dataRequired f.correo && validEmail f.correo
  && (f.rol == "admin" || f.rol == "empleado")

/-- The body of the `editar_usuario` route (app.py lines 332-354), after
its guards.  `hash` is `bcrypt.generate_password_hash`.  On a valid form
it always assigns nombre, correo and rol; it re-hashes and replaces
contraseña only under `if form.contraseña.data:` — that is, only when the
submitted password string is non-empty — and commits either way with a
success flash. -/
def editar_usuario (hash : String → String) (validEmail : String → Bool)
    (usuarios : List Usuario) (id : Nat) (f : UsuarioFormInput) :
    Reply × List Usuario :=
  match usuarios.find? (fun u => u.id == id) with
  | none => (⟨[], .abort404⟩, usuarios)
  | some _ =>
    if usuarioFormValid validEmail f then
      (⟨[("Usuario actualizado con éxito", "success")], .redirect "listar_usuarios"⟩,
       usuarios.map fun u =>
         if u.id == id then
           { u with
             nombre := f.nombre
             correo := f.correo
             rol := f.rol
             contrasena := if f.contrasena ≠ "" then hash f.contrasena else u.contrasena }
         else u)
    else (⟨[], .render "users/form.html"⟩, usuarios)

/-! ## Route classification (from the decorator stacks of app.py) -/

/-- The eight category and user CRUD routes, all of which carry both
decorators. -/
def adminOnlyRoutes : List Route :=
  [.listar_categorias, .nuevo_categoria, .editar_categoria, .eliminar_categoria,
   .listar_usuarios, .nuevo_usuario, .editar_usuario, .eliminar_usuario]

/-- The thirteen product, customer and order CRUD routes, which carry only
`login_required`. -/
def sessionOnlyRoutes : List Route :=
  [.listar_productos, .nuevo_producto, .editar_producto, .eliminar_producto,
   .listar_clientes, .nuevo_cliente, .editar_cliente, .eliminar_cliente,
   .listar_ordenes, .nueva_orden, .editar_orden, .eliminar_orden, .ver_orden]

/-! ## Theorems -/

/-- C2: for every session whose role is not "admin" (in particular role
"empleado"), `admin_required` fails with the Forbidden reply — the danger
flash plus a redirect to the home endpoint — and the check passes exactly
when the session role equals the string "admin", so no other role ever
passes it. -/
theorem C2_require_admin_exact (s : Session) :
    (s.usuario_rol ≠ some "admin" → runGuard .requireAdmin s = some forbiddenReply) ∧
    (runGuard .requireAdmin s = none ↔ s.usuario_rol = some "admin") := by
  constructor
  · intro h
    simp [runGuard, h]
  · by_cases h : s.usuario_rol = some "admin" <;> simp [runGuard, h]

/-- Witness for C2 at a concrete employee session. -/
theorem C2_require_admin_exact_witness :
    runGuard .requireAdmin ⟨some 2, some "Eva", some "empleado"⟩ = some forbiddenReply ∧
    (runGuard .requireAdmin ⟨some 2, some "Eva", some "empleado"⟩ = none ↔
      (⟨some 2, some "Eva", some "empleado"⟩ : Session).usuario_rol = some "admin") :=
  ⟨(C2_require_admin_exact ⟨some 2, some "Eva", some "empleado"⟩).1 (by decide),
   (C2_require_admin_exact ⟨some 2, some "Eva", some "empleado"⟩).2⟩

/-- C3: on the role-gated `listar_categorias` route the session-presence
check runs before the role check: with no `usuario_id` in the session the
result is the Unauthenticated redirect to login (whatever the role key
holds), with a session of a non-admin role it is the Forbidden redirect to
home, and the handler body renders only when both checks pass. -/
theorem C3_session_check_before_role_check (s : Session) :
    (s.usuario_id = none → listar_categorias s = unauthenticatedReply) ∧
    (s.usuario_id.isSome = true → s.usuario_rol ≠ some "admin" →
      listar_categorias s = forbiddenReply) ∧
    (s.usuario_id.isSome = true → s.usuario_rol = some "admin" →
      listar_categorias s = ⟨[], .render "categories/list.html"⟩) := by
  refine ⟨fun h => ?_, fun h1 h2 => ?_, fun h1 h2 => ?_⟩
  · simp [listar_categorias, dispatch, routeGuards, runGuards, runGuard, h]
  · simp [listar_categorias, dispatch, routeGuards, runGuards, runGuard, h1, h2]
  · simp [listar_categorias, dispatch, routeGuards, runGuards, runGuard, h1, h2]

/-- Witness for C3: a sessionless request with an admin role key still
hits the login redirect (session check first), an employee session hits
the Forbidden redirect, an admin session reaches the handler body. -/
theorem C3_session_check_before_role_check_witness :
    listar_categorias ⟨none, none, some "admin"⟩ = unauthenticatedReply ∧
    listar_categorias ⟨some 2, some "Eva", some "empleado"⟩ = forbiddenReply ∧
    listar_categorias ⟨some 1, some "Root", some "admin"⟩ =
      ⟨[], .render "categories/list.html"⟩ :=
  ⟨(C3_session_check_before_role_check ⟨none, none, some "admin"⟩).1 rfl,
   (C3_session_check_before_role_check ⟨some 2, some "Eva", some "empleado"⟩).2.1
     (by decide) (by decide),
   (C3_session_check_before_role_check ⟨some 1, some "Root", some "admin"⟩).2.2
     (by decide) (by decide)⟩

/-- C9: access control is asymmetric — every category and user CRUD route
carries the stacked login+admin guards, every product, customer and order
CRUD route carries only the login guard; hence any logged-in session with
role "empleado" passes the guard chain of every product/customer/order
route but is stopped with the Forbidden reply on every category/user
route. -/
theorem C9_access_control_asymmetry (s : Session)
    (hid : s.usuario_id.isSome = true) (hrol : s.usuario_rol = some "empleado") :
    (∀ r ∈ adminOnlyRoutes, routeGuards r = [.requireLogin, .requireAdmin]) ∧
    (∀ r ∈ sessionOnlyRoutes, routeGuards r = [.requireLogin]) ∧
    (∀ r ∈ sessionOnlyRoutes, runGuards (routeGuards r) s = none) ∧
    (∀ r ∈ adminOnlyRoutes, runGuards (routeGuards r) s = some forbiddenReply) := by
  have hadm : s.usuario_rol ≠ some "admin" := by simp [hrol]
  refine ⟨?_, ?_, ?_, ?_⟩ <;> intro r hr <;> fin_cases hr <;>
    simp [routeGuards, runGuards, runGuard, hid, hadm]

/-- Witness for C9 at a concrete employee session and concrete routes. -/
theorem C9_access_control_asymmetry_witness :
    routeGuards .listar_categorias = [.requireLogin, .requireAdmin] ∧
    routeGuards .nuevo_producto = [.requireLogin] ∧
    runGuards (routeGuards .nuevo_producto) ⟨some 2, some "Eva", some "empleado"⟩ = none ∧
    runGuards (routeGuards .eliminar_usuario) ⟨some 2, some "Eva", some "empleado"⟩ =
      some forbiddenReply := by
  have h := C9_access_control_asymmetry ⟨some 2, some "Eva", some "empleado"⟩
    (by decide) (by decide)
  exact ⟨h.1 _ (by decide), h.2.1 _ (by decide), h.2.2.1 _ (by decide),
    h.2.2.2 _ (by decide)⟩

/-- A concrete credential store holding the bootstrap administrator, used
by concrete instantiations. -/
def adminUser : Usuario :=
  ⟨1, "Administrador", "admin@dulcehogar.com", "storedhash", "admin"⟩

/-- C10: when the request already carries a logged-in session (a
`usuario_id` key), the login route redirects to the home page at once, for
every credential store, hash checker and submitted form — so neither the
store nor any password is consulted — and the session is returned
unchanged. -/
theorem C10_login_noop_when_logged_in (check : String → String → Bool)
    (validEmail : String → Bool) (usuarios : List Usuario) (s : Session)
    (form : Option LoginFormInput) (uid : Nat) (h : s.usuario_id = some uid) :
    login check validEmail usuarios s form = (⟨[], .redirect "index"⟩, s) := by
  simp [login, h]

/-- Witness for C10: an employee already logged in submits the admin's
correct credentials (the checker accepts everything); the route still just
redirects home and the session keeps identity 7. -/
theorem C10_login_noop_when_logged_in_witness :
    login (fun _ _ => true) (fun _ => true) [adminUser]
        ⟨some 7, some "Ana", some "empleado"⟩
        (some ⟨"admin@dulcehogar.com", "admin123"⟩) =
      (⟨[], .redirect "index"⟩, ⟨some 7, some "Ana", some "empleado"⟩) :=
  C10_login_noop_when_logged_in (fun _ _ => true) (fun _ => true) [adminUser]
    ⟨some 7, some "Ana", some "empleado"⟩
    (some ⟨"admin@dulcehogar.com", "admin123"⟩) 7 rfl

/-- C1: with no session attached and a validating login form, (a) when no
user record matches the correo, login fails with the InvalidCredentials
danger flash and the session is unchanged — no session is created; (b) for
a registered correo whose hash check rejects the supplied password, login
fails the same way, again creating no session; (c) on a passing hash check
it returns a session bound to exactly the matched user's id, nombre and
rol. -/
theorem C1_authenticate_cases (check : String → String → Bool)
    (validEmail : String → Bool) (usuarios : List Usuario) (s : Session)
    (f : LoginFormInput) (hs : s.usuario_id = none)
    (hv : loginFormValid validEmail f = true) :
    (usuarios.find? (fun u => u.correo == f.correo) = none →
      login check validEmail usuarios s (some f) =
        (⟨[("Correo o contraseña incorrectos", "danger")], .render "login.html"⟩, s)) ∧
    (∀ u, usuarios.find? (fun v => v.correo == f.correo) = some u →
      check u.contrasena f.contrasena = false →
      login check validEmail usuarios s (some f) =
        (⟨[("Correo o contraseña incorrectos", "danger")], .render "login.html"⟩, s)) ∧
    (∀ u, usuarios.find? (fun v => v.correo == f.correo) = some u →
      check u.contrasena f.contrasena = true →
      login check validEmail usuarios s (some f) =
        (⟨[("¡Inicio de sesión exitoso!", "success")], .redirect "index"⟩,
         ⟨some u.id, some u.nombre, some u.rol⟩)) := by
  refine ⟨fun hf => ?_, fun u hf hc => ?_, fun u hf hc => ?_⟩
  · simp [login, hs, hv, hf]
  · simp [login, hs, hv, hf, hc]
  · simp [login, hs, hv, hf, hc]

/-- Witness for C1: the concrete store holds only the bootstrap admin.
With a rejecting hash check the admin's correo yields the danger flash and
the empty session is untouched; an unknown correo does the same; with an
accepting hash check the session comes out bound to (1, Administrador,
admin). -/
theorem C1_authenticate_cases_witness :
    login (fun _ _ => false) (fun _ => true) [adminUser] Session.empty
        (some ⟨"admin@dulcehogar.com", "wrongpw"⟩) =
      (⟨[("Correo o contraseña incorrectos", "danger")], .render "login.html"⟩,
       Session.empty) ∧
    login (fun _ _ => false) (fun _ => true) [adminUser] Session.empty
        (some ⟨"nadie@dulcehogar.com", "x"⟩) =
      (⟨[("Correo o contraseña incorrectos", "danger")], .render "login.html"⟩,
       Session.empty) ∧
    login (fun _ _ => true) (fun _ => true) [adminUser] Session.empty
        (some ⟨"admin@dulcehogar.com", "admin123"⟩) =
      (⟨[("¡Inicio de sesión exitoso!", "success")], .redirect "index"⟩,
       ⟨some 1, some "Administrador", some "admin"⟩) :=
  ⟨(C1_authenticate_cases (fun _ _ => false) (fun _ => true) [adminUser] Session.empty
      ⟨"admin@dulcehogar.com", "wrongpw"⟩ rfl (by decide)).2.1 adminUser
      (by decide) rfl,
   (C1_authenticate_cases (fun _ _ => false) (fun _ => true) [adminUser] Session.empty
      ⟨"nadie@dulcehogar.com", "x"⟩ rfl (by decide)).1 (by decide),
   (C1_authenticate_cases (fun _ _ => true) (fun _ => true) [adminUser] Session.empty
      ⟨"admin@dulcehogar.com", "admin123"⟩ rfl (by decide)).2.2 adminUser
      (by decide) rfl⟩

/-- C4: with zero customers present, `nueva_orden` fails with the
NoCustomers warning flash and a redirect (not a hard error) and persists
no order row; with at least one customer and a validating form it commits
exactly one new order whose total is 0.0. -/
theorem C4_create_order_gated_on_customers (clientes : List Cliente)
    (ordenes : List Orden) (f : OrdenFormInput) (nid : Nat) :
    (clientes = [] →
      nueva_orden clientes ordenes f nid =
        (⟨[("Debe agregar al menos un cliente antes de crear una orden.", "warning")],
          .redirect "listar_clientes"⟩, ordenes)) ∧
    (clientes ≠ [] → ordenFormValid clientes f = true →
      nueva_orden clientes ordenes f nid =
        (⟨[("Orden creada con éxito.", "success")], .redirect "listar_ordenes"⟩,
         ordenes ++ [⟨nid, (f.cliente_id.getD 0).toNat, f.fecha, 0⟩])) := by
  constructor
  · intro h
    subst h
    simp [nueva_orden]
  · intro h hv
    simp [nueva_orden, List.isEmpty_iff, h, hv]

/-- Witness for C4: with no customers the order table stays empty and the
warning redirect is produced; with one customer a single order with total
0 is persisted. -/
theorem C4_create_order_gated_on_customers_witness :
    nueva_orden [] [] ⟨some 1, "2024-01-01"⟩ 1 =
      (⟨[("Debe agregar al menos un cliente antes de crear una orden.", "warning")],
        .redirect "listar_clientes"⟩, []) ∧
    nueva_orden [⟨1, "Cli", "cli@x.com", "", ""⟩] [] ⟨some 1, "2024-01-01"⟩ 1 =
      (⟨[("Orden creada con éxito.", "success")], .redirect "listar_ordenes"⟩,
       [⟨1, 1, "2024-01-01", 0⟩]) :=
  ⟨(C4_create_order_gated_on_customers [] [] ⟨some 1, "2024-01-01"⟩ 1).1 rfl,
   (C4_create_order_gated_on_customers [⟨1, "Cli", "cli@x.com", "", ""⟩] []
      ⟨some 1, "2024-01-01"⟩ 1).2 (by decide) (by decide)⟩

/-- C7: on a validating edit form for an existing user, `editar_usuario`
succeeds with the success flash; the stored record under that id gets the
submitted nombre, correo and rol, and its password hash is replaced by a
fresh hash exactly when the submitted password is non-empty — an empty
password leaves the stored hash untouched. -/
theorem C7_editar_usuario_password_frame (hash : String → String)
    (validEmail : String → Bool) (usuarios : List Usuario) (id : Nat)
    (f : UsuarioFormInput) (u0 : Usuario)
    (hfind : usuarios.find? (fun u => u.id == id) = some u0)
    (hv : usuarioFormValid validEmail f = true) :
    (editar_usuario hash validEmail usuarios id f).1 =
      ⟨[("Usuario actualizado con éxito", "success")], .redirect "listar_usuarios"⟩ ∧
    (editar_usuario hash validEmail usuarios id f).2.find? (fun u => u.id == id) =
      some { u0 with
             nombre := f.nombre
             correo := f.correo
             rol := f.rol
             contrasena := if f.contrasena ≠ "" then hash f.contrasena
                           else u0.contrasena } := by
  have hid0 : u0.id = id := by
    have h0 := List.find?_some hfind
    simpa using h0
  constructor
  · simp [editar_usuario, hfind, hv]
  · simp only [editar_usuario, hfind, hv, if_true]
    rw [List.find?_map]
    have hcomp : ((fun u : Usuario => u.id == id) ∘ fun u : Usuario =>
        if u.id == id then
          { u with
            nombre := f.nombre
            correo := f.correo
            rol := f.rol
            contrasena := if f.contrasena ≠ "" then hash f.contrasena
                          else u.contrasena }
        else u) = fun u : Usuario => u.id == id := by
      funext u
      by_cases h : u.id = id <;> simp [h]
    rw [hcomp, hfind]
    simp [hid0]

/-- Witness for C7 at a concrete store: editing user 2 with an empty
password keeps the stored hash "oldhash"; editing with password "nueva"
replaces it by the fresh hash. -/
theorem C7_editar_usuario_password_frame_witness :
    (editar_usuario (fun p => String.append "bc$" p) (fun _ => true)
        [adminUser, ⟨2, "Eva", "eva@x.com", "oldhash", "empleado"⟩] 2
        ⟨"Eva María", "eva@dulce.com", "", "empleado"⟩).2.find?
        (fun u => u.id == 2) =
      some ⟨2, "Eva María", "eva@dulce.com", "oldhash", "empleado"⟩ ∧
    (editar_usuario (fun p => String.append "bc$" p) (fun _ => true)
        [adminUser, ⟨2, "Eva", "eva@x.com", "oldhash", "empleado"⟩] 2
        ⟨"Eva", "eva@x.com", "nueva", "empleado"⟩).2.find?
        (fun u => u.id == 2) =
      some ⟨2, "Eva", "eva@x.com", "bc$nueva", "empleado"⟩ :=
  ⟨(C7_editar_usuario_password_frame (fun p => String.append "bc$" p) (fun _ => true)
      [adminUser, ⟨2, "Eva", "eva@x.com", "oldhash", "empleado"⟩] 2
      ⟨"Eva María", "eva@dulce.com", "", "empleado"⟩
      ⟨2, "Eva", "eva@x.com", "oldhash", "empleado"⟩ (by decide) (by decide)).2,
   (C7_editar_usuario_password_frame (fun p => String.append "bc$" p) (fun _ => true)
      [adminUser, ⟨2, "Eva", "eva@x.com", "oldhash", "empleado"⟩] 2
      ⟨"Eva", "eva@x.com", "nueva", "empleado"⟩
      ⟨2, "Eva", "eva@x.com", "oldhash", "empleado"⟩ (by decide) (by decide)).2⟩

/-- C8: updating an existing category and fetching it back returns exactly
the submitted nombre and descripcion (under the untouched id); deleting a
category keeps every product row (same nombres in the same order) and no
surviving product still references the deleted category id — the nullable
foreign key is set to null. -/
theorem C8_category_roundtrip_and_delete_setnull
    (cats : List Categoria) (prods : List Producto) (id : Nat)
    (f : CategoriaFormInput) (c0 : Categoria)
    (hfind : fetchCategoria cats id = some c0)
    (hv : categoriaFormValid f = true) :
    fetchCategoria (editar_categoria cats id f).2 id =
      some ⟨c0.id, f.nombre, f.descripcion⟩ ∧
    (eliminar_categoria cats prods id).2.2.map Producto.nombre =
      prods.map Producto.nombre ∧
    ∀ p ∈ (eliminar_categoria cats prods id).2.2, p.categoria_id ≠ some id := by
  have hfind' : cats.find? (fun c => c.id == id) = some c0 := hfind
  have hid0 : c0.id = id := by
    have h0 := List.find?_some hfind'
    simpa using h0
  refine ⟨?_, ?_, ?_⟩
  · simp only [editar_categoria, fetchCategoria, hfind', hv, if_true]
    rw [List.find?_map]
    have hcomp : ((fun c : Categoria => c.id == id) ∘ fun c : Categoria =>
        if c.id == id then { c with nombre := f.nombre, descripcion := f.descripcion }
        else c) = fun c : Categoria => c.id == id := by
      funext c
      by_cases h : c.id = id <;> simp [h]
    rw [hcomp, hfind']
    simp [hid0]
  · simp only [eliminar_categoria, fetchCategoria, hfind']
    rw [List.map_map]
    apply List.map_congr_left
    intro p _
    by_cases h : p.categoria_id = some id <;> simp [h]
  · intro p hp
    simp only [eliminar_categoria, fetchCategoria, hfind'] at hp
    obtain ⟨q, _, rfl⟩ := List.mem_map.mp hp
    by_cases h : q.categoria_id = some id <;> simp [h]

/-- Witness for C8, mirroring the scenario of the specification: category
"Postres" renamed to "Tortas" reads back as {Tortas, dulces}; after the
category is deleted, product "Pastel" is still listed and carries no
category reference. -/
theorem C8_category_roundtrip_and_delete_setnull_witness :
    fetchCategoria (editar_categoria [⟨1, "Postres", ""⟩] 1 ⟨"Tortas", "dulces"⟩).2 1 =
      some ⟨1, "Tortas", "dulces"⟩ ∧
    (eliminar_categoria [⟨1, "Postres", ""⟩] [⟨1, "Pastel", 3, 25, some 1⟩] 1).2.2.map
        Producto.nombre = ["Pastel"] ∧
    (⟨1, "Pastel", 3, 25, (none : Option Nat)⟩ : Producto).categoria_id ≠ some 1 := by
  have h := C8_category_roundtrip_and_delete_setnull [⟨1, "Postres", ""⟩]
    [⟨1, "Pastel", 3, 25, some 1⟩] 1 ⟨"Tortas", "dulces"⟩ ⟨1, "Postres", ""⟩
    (by decide) (by decide)
  exact ⟨h.1, h.2.1, h.2.2 ⟨1, "Pastel", 3, 25, none⟩ (by decide)⟩

/-- Whether a `nuevo_producto` outcome is a reply delivered at the request
boundary (`true`) rather than a database exception escaping the handler
(`false`). -/
def handledReply : Except DBError (Reply × List Producto) → Bool
  | .ok _ => true
  | .error _ => false

/-- C5 counterexample: submitting the form for a second product named
"Pan" while "Pan" already exists makes the commit hit the unique-name
constraint, and because `nuevo_producto` has no exception handling the
outcome is the raw IntegrityError escaping the handler — no user-visible
notice, no redirect, no re-rendered form is produced. -/
theorem C5_duplicate_counterexample :
    nuevo_producto [⟨1, "Postres", ""⟩] [⟨1, "Pan", 3, 5, some 1⟩]
        ⟨"Pan", some 3, some 5, some 1⟩ 2 = .error .integrityError ∧
    handledReply (nuevo_producto [⟨1, "Postres", ""⟩] [⟨1, "Pan", 3, 5, some 1⟩]
        ⟨"Pan", some 3, some 5, some 1⟩ 2) = false := ⟨rfl, rfl⟩

/-- C5 (amended): for every store and every validating form whose nombre
collides (case-sensitively) with an existing product, `nuevo_producto`
fails with the unique-constraint IntegrityError — so nothing is committed
and the store is unchanged — but the error is not recovered at the request
boundary: it propagates out of the handler as an unhandled fault. -/
theorem C5_duplicate_name_unhandled_fault (cats : List Categoria)
    (prods : List Producto) (f : ProductoFormInput) (nid : Nat)
    (hv : productoFormValid cats f = true)
    (hdup : prods.any (fun q => q.nombre == f.nombre) = true) :
    nuevo_producto cats prods f nid = .error .integrityError ∧
    handledReply (nuevo_producto cats prods f nid) = false := by
  have herr : nuevo_producto cats prods f nid = .error .integrityError := by
    simp [nuevo_producto, insertProducto, hv, hdup]
  exact ⟨herr, by rw [herr]; rfl⟩

/-- Witness for C5 (amended) at a concrete colliding submission. -/
theorem C5_duplicate_name_unhandled_fault_witness :
    nuevo_producto [⟨1, "Postres", ""⟩] [⟨1, "Pan", 3, 5, some 1⟩, ⟨2, "Queque", 1, 7, none⟩]
        ⟨"Queque", some 2, some 9, some 1⟩ 3 = .error .integrityError ∧
    handledReply (nuevo_producto [⟨1, "Postres", ""⟩]
        [⟨1, "Pan", 3, 5, some 1⟩, ⟨2, "Queque", 1, 7, none⟩]
        ⟨"Queque", some 2, some 9, some 1⟩ 3) = false :=
  C5_duplicate_name_unhandled_fault [⟨1, "Postres", ""⟩]
    [⟨1, "Pan", 3, 5, some 1⟩, ⟨2, "Queque", 1, 7, none⟩]
    ⟨"Queque", some 2, some 9, some 1⟩ 3 (by decide) (by decide)

/-- C6 (code bug evaluated): the `DataRequired` validator on the cantidad
and precio fields treats the number 0 as missing input, so a fresh,
non-colliding product with quantity 0 (or price 0) fails form validation:
the handler re-renders the form and the product table stays empty — the
product is never listed, although `NumberRange(min=0)` on the same fields
admits 0 by intent. -/
theorem C6_zero_quantity_or_price_rejected :
    productoFormValid [⟨1, "Postres", ""⟩] ⟨"Pan", some 0, some 5, some 1⟩ = false ∧
    nuevo_producto [⟨1, "Postres", ""⟩] [] ⟨"Pan", some 0, some 5, some 1⟩ 1 =
      .ok (⟨[], .render "products/form.html"⟩, list_productos []) ∧
    productoFormValid [⟨1, "Postres", ""⟩] ⟨"Queque", some 3, some 0, some 1⟩ = false :=
  ⟨rfl, rfl, rfl⟩

end App
